import Mathlib

/-!
Verification of the autopotter repository's core orchestration logic.

The development shallowly embeds the Python source:

* `parse_json2video_config` (src/autopotter_tools/parse_json2video_configs.py)
  as a Lean function over `List Char` strings, parameterised by the JSON
  decoder `loads` (Python's `json.loads`, a library function modelled as an
  `Option`-returning argument: `json.loads` on a string either returns a
  value or raises `json.JSONDecodeError`, the only exception the source
  catches).  `Logger` calls are modelled as an emitted list of log events.
* `Json2VideoAPI.wait_for_completion` (src/autopotter_tools/json2video_manager.py)
  as a fuelled loop over an abstract poll oracle, with the virtual clock
  advanced by the hard-coded 10-second sleeps.
* `run_autopotter_workflow` (src/autopotter_workflow.py) as a loop over the
  two candidate lists, parameterised by the random index picker and by the
  behaviour of the external render / publish services.
* the container-readiness polling of the Instagram publish side, which is
  called by the workflow but whose implementation is not part of the given
  sources, modelled from the spec.

Python strings are modelled as `List Char`; Python `dict`/JSON values by the
inductive `Json` below.
-/

/-- JSON values, the result type of Python's `json.loads`.  Numbers are
modelled as integers (enough for every input appearing in this
development); object fields keep insertion order, as Python dicts do. -/
inductive Json where
  | null : Json
  | bool (b : Bool) : Json
  | num (n : Int) : Json
  | str (s : List Char) : Json
  | arr (xs : List Json) : Json
  | obj (fields : List (List Char × Json)) : Json

/-- The empty configuration object `{}` returned by
`parse_json2video_config` on failure. -/
def Json.emptyObj : Json := Json.obj []

/-- Python truthiness of a JSON value (`if not config: ...`):
`None`, `False`, `0`, `""`, `[]` and `\x7b\x7d` are falsy. -/
def Json.isFalsy : Json → Bool
  | Json.null => true
  | Json.bool b => !b
  | Json.num n => n == 0
  | Json.str s => s.isEmpty
  | Json.arr xs => xs.isEmpty
  | Json.obj fs => fs.isEmpty

/-- Dictionary lookup, `d.get(key)` / `d[key]` on a JSON object.  Returns
`none` when the value is not an object or the key is absent. -/
def Json.lookup : Json → List Char → Option Json
  | Json.obj fs, k => (fs.find? (fun f => f.1 = k)).map Prod.snd
  | _, _ => none

/-! ## ConfigRepair: `parse_json2video_config`

Translation of src/autopotter_tools/parse_json2video_configs.py lines 22-95.
-/

/-- Log events emitted by `parse_json2video_config`, one constructor per
`Logger.error`/`Logger.info` call site (debug logging omitted).
`errorNoConfig` is the "No config string provided for video ..." error,
`errorAllFailed` the "Failed to parse json2video config ...: All JSON
parsing strategies failed" error. -/
inductive LogEvent where
  | errorNoConfig : LogEvent
  | infoParsedDirect : LogEvent
  | infoParsedUsing (strategyName : List Char) : LogEvent
  | errorAllFailed : LogEvent
deriving DecidableEq

/-- Strategy 2: `re.sub(r'[\x00-\x1f\x7f-\x9f]', '', s)` — remove C0 and C1
control characters (code points 0x00-0x1f and 0x7f-0x9f). -/
def stripControlChars (s : List Char) : List Char :=
  s.filter (fun c => !(c.toNat ≤ 0x1f || (0x7f ≤ c.toNat && c.toNat ≤ 0x9f)))

/-- First index of character `c` in `s`, Python's `s.find(c)` (with `none`
for `-1`). -/
def pyFind (s : List Char) (c : Char) : Option Nat :=
  s.findIdx? (fun x => x = c)

/-- Last index of character `c` in `s`, Python's `s.rfind(c)` (with `none`
for `-1`). -/
def pyRfind (s : List Char) (c : Char) : Option Nat :=
  match (s.reverse).findIdx? (fun x => x = c) with
  | some k => some (s.length - 1 - k)
  | none => none

/-- Strategy 3:
`s[s.find('\x7b'):s.rfind('\x7d')+1] if s.find('\x7b') != -1 and s.rfind('\x7d') > s.find('\x7b') else s`. -/
def extractJsonSlice (s : List Char) : List Char :=
  match pyFind s '\x7b', pyRfind s '\x7d' with
  | some i, some j => if i < j then (s.drop i).take (j + 1 - i) else s
  | _, _ => s

/-- Python `s.replace(p, r)` for a two-character pattern `[p1, p2]` and a
one-character replacement `r`: replace all non-overlapping occurrences,
scanning left to right. -/
def replacePair (p1 p2 r : Char) : List Char → List Char
  | [] => []
  | [c] => [c]
  | c1 :: c2 :: rest =>
    if c1 = p1 && c2 = p2 then r :: replacePair p1 p2 r rest
    else c1 :: replacePair p1 p2 r (c2 :: rest)

/-- Strategy 4: `s.replace('\\"', '"').replace('\\n', '\n')`. -/
def unescapeChars (s : List Char) : List Char :=
  replacePair '\\' 'n' '\n' (replacePair '\\' '"' '"' s)

/-- The `repair_strategies` list of lines 48-53: each entry is a string
transformation together with its `strategy_name`. -/
def repair_strategies : List ((List Char → List Char) × List Char) :=
  [ (fun s => s, "direct parsing".toList),
    (stripControlChars, "control character removal".toList),
    (extractJsonSlice, "JSON extraction".toList),
    (unescapeChars, "escaped character fixing".toList) ]

/-- The `for repair_func, strategy_name in repair_strategies` loop of lines
56-69: try `loads (repair_func config_str)` for each strategy in order,
returning the first successful parse together with the success log event
(which distinguishes "direct parsing" from the other strategies, as lines
61-64 do); `none` when every strategy's parse raises `JSONDecodeError`. -/
def tryRepairStrategies (loads : List Char → Option Json) (configStr : List Char) :
    List ((List Char → List Char) × List Char) → Option (Json × LogEvent)
  | [] => none
  | (repairFunc, strategyName) :: rest =>
    match loads (repairFunc configStr) with
    | some configJson =>
      some (configJson,
        if strategyName = "direct parsing".toList then LogEvent.infoParsedDirect
        else LogEvent.infoParsedUsing strategyName)
    | none => tryRepairStrategies loads configStr rest

/-- `parse_json2video_config(config_str, video_title)` of lines 22-95.
`configStr : Option (List Char)` models the Python argument, which may be
`None`; `loads` models `json.loads`.  The function returns the parsed
configuration (or `\x7b\x7d` on failure) together with the list of emitted
error/info log events; it is total, matching the source, which catches
every `JSONDecodeError` and never raises. -/
def parse_json2video_config (loads : List Char → Option Json)
    (configStr : Option (List Char)) : Json × List LogEvent :=
  match configStr with
  | none => (Json.emptyObj, [LogEvent.errorNoConfig])
  | some s =>
    if s.isEmpty then (Json.emptyObj, [LogEvent.errorNoConfig])
    else
      match tryRepairStrategies loads s repair_strategies with
      | some (configJson, ev) => (configJson, [ev])
      | none => (Json.emptyObj, [LogEvent.errorAllFailed])

/-! ## A concrete JSON decoder

`loadsSimple` is a small executable recursive-descent JSON parser covering
objects, arrays, strings (with the common backslash escapes), integer
numbers and the `true`/`false`/`null` literals.  It instantiates the
abstract `loads` parameter of `parse_json2video_config` in witnesses and
counterexamples; on every concrete input used below it agrees with Python's
`json.loads`. -/

/-- JSON whitespace skipping. -/
def skipWs (s : List Char) : List Char :=
  s.dropWhile (fun c => c = ' ' || c = '\t' || c = '\n' || c = '\r')

/-- Parse the body of a JSON string literal after the opening quote;
returns the decoded characters and the input after the closing quote. -/
def parseStringBody : Nat → List Char → Option (List Char × List Char)
  | 0, _ => none
  | _, [] => none
  | fuel + 1, c :: rest =>
    if c = '"' then some ([], rest)
    else if c = '\\' then
      match rest with
      | [] => none
      | e :: rest2 =>
        let dec : Option Char :=
          if e = '"' then some '"'
          else if e = '\\' then some '\\'
          else if e = '/' then some '/'
          else if e = 'n' then some '\n'
          else if e = 't' then some '\t'
          else if e = 'r' then some '\r'
          else none
        match dec with
        | some d =>
          match parseStringBody fuel rest2 with
          | some (cs, rem) => some (d :: cs, rem)
          | none => none
        | none => none
    else
      match parseStringBody fuel rest with
      | some (cs, rem) => some (c :: cs, rem)
      | none => none

/-- Parse a run of decimal digits into a natural number. -/
def parseDigits : List Char → Option (Nat × List Char)
  | s =>
    let ds := s.takeWhile (fun c => c.isDigit)
    if ds.isEmpty then none
    else some (ds.foldl (fun acc c => acc * 10 + (c.toNat - 48)) 0, s.drop ds.length)

mutual

/-- Parse one JSON value from the front of the input. -/
def parseJsonValue : Nat → List Char → Option (Json × List Char)
  | 0, _ => none
  | fuel + 1, s =>
    match skipWs s with
    | [] => none
    | c :: rest =>
      if c = '"' then
        match parseStringBody (fuel + 1) rest with
        | some (cs, rem) => some (Json.str cs, rem)
        | none => none
      else if c = '[' then
        parseJsonArrayItems fuel (skipWs rest) true
      else if c = '\x7b' then
        parseJsonObjectFields fuel (skipWs rest) true
      else if c = '-' then
        match parseDigits rest with
        | some (n, rem) => some (Json.num (-(n : Int)), rem)
        | none => none
      else if c.isDigit then
        match parseDigits (c :: rest) with
        | some (n, rem) => some (Json.num (n : Int), rem)
        | none => none
      else if (c :: rest).take 4 = "true".toList then
        some (Json.bool true, (c :: rest).drop 4)
      else if (c :: rest).take 5 = "false".toList then
        some (Json.bool false, (c :: rest).drop 5)
      else if (c :: rest).take 4 = "null".toList then
        some (Json.null, (c :: rest).drop 4)
      else none

/-- Parse the items of a JSON array after `[` (`first` marks that no item
has been consumed yet, so `]` may follow immediately). -/
def parseJsonArrayItems : Nat → List Char → Bool → Option (Json × List Char)
  | 0, _, _ => none
  | fuel + 1, s, first =>
    match skipWs s with
    | [] => none
    | c :: rest =>
      if c = ']' && first then some (Json.arr [], rest)
      else
        match parseJsonValue fuel (c :: rest) with
        | some (v, rem) =>
          match skipWs rem with
          | ']' :: rem2 => some (Json.arr [v], rem2)
          | ',' :: rem2 =>
            match parseJsonArrayItems fuel rem2 false with
            | some (Json.arr vs, rem3) => some (Json.arr (v :: vs), rem3)
            | _ => none
          | _ => none
        | none => none

/-- Parse the fields of a JSON object after an opening brace (`first` marks
that no field has been consumed yet, so a closing brace may follow
immediately). -/
def parseJsonObjectFields : Nat → List Char → Bool → Option (Json × List Char)
  | 0, _, _ => none
  | fuel + 1, s, first =>
    match skipWs s with
    | [] => none
    | c :: rest =>
      if c = '\x7d' && first then some (Json.obj [], rest)
      else if c = '"' then
        match parseStringBody (fuel + 1) rest with
        | some (key, rem) =>
          match skipWs rem with
          | ':' :: rem2 =>
            match parseJsonValue fuel rem2 with
            | some (v, rem3) =>
              match skipWs rem3 with
              | '\x7d' :: rem4 => some (Json.obj [(key, v)], rem4)
              | ',' :: rem4 =>
                match parseJsonObjectFields fuel rem4 false with
                | some (Json.obj fs, rem5) => some (Json.obj ((key, v) :: fs), rem5)
                | _ => none
              | _ => none
            | none => none
          | _ => none
        | none => none
      else none

end

/-- `json.loads` model: parse one JSON value and require that only
whitespace remains. -/
def loadsSimple (s : List Char) : Option Json :=
  match parseJsonValue (s.length + 1) s with
  | some (v, rem) => if (skipWs rem).isEmpty then some v else none
  | none => none

/-! ## RenderClient: `Json2VideoAPI.wait_for_completion`

Translation of src/autopotter_tools/json2video_manager.py lines 103-172.
The network is abstracted as a poll oracle `polls : Nat → PollOutcome`
giving, for the k-th call of `get_project_status`, either the
status/success pair the loop body extracts from the response (lines
116-122) or the fact that the call raised.  Time is virtual: the loop
starts at elapsed 0 and each hard-coded `time.sleep(10)` advances it by 10
seconds; `get_project_status` itself is instantaneous, so the `while
time.time() - start_time < self.timeout` guard is `elapsed < timeout`. -/

/-- Outcome of one `get_project_status` call as seen by the loop body:
`ok status success` is the extracted `status` string and `success` flag;
`exn` means the call raised (re-raised by the handler of lines 164-168). -/
inductive PollOutcome where
  | ok (status : List Char) (success : Bool) : PollOutcome
  | exn : PollOutcome
deriving DecidableEq

/-- Result of `wait_for_completion`: `completed k` — returned the status
payload of poll `k`; `failed k` — raised at poll `k` (error status, or a
status-check exception); `timedOut k` — left the while loop after `k`
polls and raised the timeout error.  In each case exactly the polls
`0, ..., k` (respectively `0, ..., k-1` for `timedOut k`) were made. -/
inductive WaitResult where
  | completed (k : Nat) : WaitResult
  | failed (k : Nat) : WaitResult
  | timedOut (k : Nat) : WaitResult
deriving DecidableEq

/-- The polling loop of lines 111-168.  `fuel` bounds the recursion and is
chosen large enough to never run out (each iteration advances `elapsed` by
10); `k` counts polls made so far, `elapsed` the virtual seconds spent. -/
def waitLoop (polls : Nat → PollOutcome) (timeout : Nat) :
    Nat → Nat → Nat → WaitResult
  | 0, _, k => WaitResult.timedOut k
  | fuel + 1, elapsed, k =>
    if elapsed < timeout then
      match polls k with
      | PollOutcome.exn => WaitResult.failed k
      | PollOutcome.ok status success =>
        if status = "done".toList || success then WaitResult.completed k
        else if status = "error".toList then WaitResult.failed k
        else waitLoop polls timeout fuel (elapsed + 10) (k + 1)
    else WaitResult.timedOut k

/-- `wait_for_completion(project_id)`: run the polling loop from time 0.
`timeout` is `self.timeout` (the `json2video_timeout` config value). -/
def wait_for_completion (polls : Nat → PollOutcome) (timeout : Nat) : WaitResult :=
  waitLoop polls timeout (timeout + 1) 0 0

/-- A poll outcome on which the loop sleeps and retries: a response whose
`status` is none of the terminal ones and whose `success` flag is false
(lines 154-162 treat pending/processing/running, `not_found_yet` and any
unknown status alike). -/
def isRetryPoll : PollOutcome → Bool
  | PollOutcome.ok status success =>
    !success && status ≠ "done".toList && status ≠ "error".toList
  | PollOutcome.exn => false

/-! ## WorkflowOrchestrator: `run_autopotter_workflow`

Translation of src/autopotter_workflow.py lines 23-174, focused on the
candidate retry loop (lines 88-145) and the post-loop draft/publish/cleanup
branches (lines 149-174).  Videos are identified by abstract ids
(`Video := Nat`, standing for the video dict with its caption); parsed
configs are an opaque type `κ`, since the loop only tests a config for
falsiness (line 98) and otherwise passes it verbatim to `create_video`.
The environment is abstracted by `pick` (the value of
`random.randint(0, len(available_videos) - 1)` given the current list
length — every in-range choice is realisable as `pick len % len`),
`isInvalid` (the falsiness test `not cfg or cfg == \x7b\x7d` of line 98,
instantiated with `Json.isFalsy` for real configs) and
`render : κ → RenderOutcome` (the remote service's response to submitting
that config). -/

/-- Candidate video identity (the video dict of `available_videos`). -/
abbrev Video := Nat

/-- What the render service does for a submitted config: `create_video`
raises; `wait_for_completion` raises (error status or timeout); or the
render completes with the reported `duration`, after which the download
either succeeds or raises. -/
inductive RenderOutcome where
  | createFail : RenderOutcome
  | waitFail : RenderOutcome
  | completed (duration : Int) (downloadOk : Bool) : RenderOutcome
deriving DecidableEq

/-- Observable events of one pass through the retry loop body:
`skipInvalid` — the line 98 falsy-config discard (no render submission);
`submit` — a `create_video` call with the selected video's config;
`renderFail` — the selected candidate's try-block raised (submission
error, wait error/timeout, duration below 2 s, or download failure) and
the candidate was popped; `renderOk` — the render succeeded and the video
was downloaded. -/
inductive WorkflowEv (κ : Type) where
  | skipInvalid (v : Video) : WorkflowEv κ
  | submit (v : Video) (cfg : κ) : WorkflowEv κ
  | renderFail (v : Video) : WorkflowEv κ
  | renderOk (v : Video) (duration : Int) : WorkflowEv κ
deriving DecidableEq

/-- How the retry loop ended: `success` (with the final render duration),
`exhausted` (loop left with `video_success` still false: the line 145
"All videos failed" exception), or `indexError` (the
`available_configs[selected_index]` access of line 95 raised because the
configs list was shorter than the videos list; the exception escapes to
the outer handler). -/
inductive LoopExit where
  | success (duration : Int) : LoopExit
  | exhausted : LoopExit
  | indexError : LoopExit
deriving DecidableEq

/-- The `while available_videos and not video_success` loop of lines
91-142, fuelled (one unit per iteration; each iteration either exits the
loop or pops one element, so `videos.length` fuel always suffices).
Returns the event trace and the way the loop exited. -/
def tryVideosLoop {κ : Type} (pick : Nat → Nat) (isInvalid : κ → Bool)
    (render : κ → RenderOutcome) :
    Nat → List Video → List κ → List (WorkflowEv κ) × LoopExit
  | 0, _, _ => ([], LoopExit.exhausted)
  | fuel + 1, videos, configs =>
    if videos.isEmpty then ([], LoopExit.exhausted)
    else
      let len := videos.length
      let i := pick len % len
      match videos.get? i with
      | none => ([], LoopExit.indexError)
      | some v =>
        match configs.get? i with
        | none => ([], LoopExit.indexError)
        | some cfg =>
          if isInvalid cfg then
            let rest := tryVideosLoop pick isInvalid render fuel
              (videos.eraseIdx i) (configs.eraseIdx i)
            (WorkflowEv.skipInvalid v :: rest.1, rest.2)
          else
            match render cfg with
            | RenderOutcome.createFail =>
              let rest := tryVideosLoop pick isInvalid render fuel
                (videos.eraseIdx i) (configs.eraseIdx i)
              (WorkflowEv.submit v cfg :: WorkflowEv.renderFail v :: rest.1, rest.2)
            | RenderOutcome.waitFail =>
              let rest := tryVideosLoop pick isInvalid render fuel
                (videos.eraseIdx i) (configs.eraseIdx i)
              (WorkflowEv.submit v cfg :: WorkflowEv.renderFail v :: rest.1, rest.2)
            | RenderOutcome.completed d dl =>
              if d < 2 || !dl then
                let rest := tryVideosLoop pick isInvalid render fuel
                  (videos.eraseIdx i) (configs.eraseIdx i)
                (WorkflowEv.submit v cfg :: WorkflowEv.renderFail v :: rest.1, rest.2)
              else
                ([WorkflowEv.submit v cfg, WorkflowEv.renderOk v d],
                  LoopExit.success d)

/-- The retry loop started with full fuel. -/
def tryVideos {κ : Type} (pick : Nat → Nat) (isInvalid : κ → Bool)
    (render : κ → RenderOutcome) (videos : List Video) (configs : List κ) :
    List (WorkflowEv κ) × LoopExit :=
  tryVideosLoop pick isInvalid render videos.length videos configs

/-- Observable outcome of one `run_autopotter_workflow` call. -/
structure WorkflowRun (κ : Type) where
  loopTrace : List (WorkflowEv κ)
  loopExit : LoopExit
  publishAttempts : Nat
  artifactDownloaded : Bool
  artifactDeleted : Bool
  returnValue : Bool
deriving DecidableEq

/-- `run_autopotter_workflow` after the autodraft stage (lines 88-174):
run the retry loop; on loop success with `video_draft_only` return `True`
keeping the artifact (lines 150-154); otherwise attempt the Instagram
publish step (lines 157-162, `publishRaises` abstracting whether that step
raises) — if it raises, the outer handler of lines 172-174 returns `False`
without reaching the cleanup of lines 165-167; if it returns, the artifact
is removed and the run returns `True`.  A loop exit without success
(exception of line 145, or an index error) reaches the outer handler:
`False`, nothing downloaded. -/
def run_autopotter_workflow {κ : Type} (pick : Nat → Nat)
    (isInvalid : κ → Bool) (render : κ → RenderOutcome)
    (videos : List Video) (configs : List κ)
    (videoDraftOnly : Bool) (publishRaises : Bool) : WorkflowRun κ :=
  let r := tryVideos pick isInvalid render videos configs
  match r.2 with
  | LoopExit.success d =>
    if videoDraftOnly then
      { loopTrace := r.1, loopExit := LoopExit.success d, publishAttempts := 0,
        artifactDownloaded := true, artifactDeleted := false, returnValue := true }
    else if publishRaises then
      { loopTrace := r.1, loopExit := LoopExit.success d, publishAttempts := 1,
        artifactDownloaded := true, artifactDeleted := false, returnValue := false }
    else
      { loopTrace := r.1, loopExit := LoopExit.success d, publishAttempts := 1,
        artifactDownloaded := true, artifactDeleted := true, returnValue := true }
  | e =>
    { loopTrace := r.1, loopExit := e, publishAttempts := 0,
      artifactDownloaded := false, artifactDeleted := false, returnValue := false }

/-- Reference form of the retry loop operating on the zipped candidate
list, in which each selected video is paired with its own config by
construction.  Used to state the index-alignment invariant. -/
def tryVideosLoopZip {κ : Type} (pick : Nat → Nat) (isInvalid : κ → Bool)
    (render : κ → RenderOutcome) :
    Nat → List (Video × κ) → List (WorkflowEv κ) × LoopExit
  | 0, _ => ([], LoopExit.exhausted)
  | fuel + 1, pairs =>
    if pairs.isEmpty then ([], LoopExit.exhausted)
    else
      let len := pairs.length
      let i := pick len % len
      match pairs.get? i with
      | none => ([], LoopExit.indexError)
      | some (v, cfg) =>
        if isInvalid cfg then
          let rest := tryVideosLoopZip pick isInvalid render fuel (pairs.eraseIdx i)
          (WorkflowEv.skipInvalid v :: rest.1, rest.2)
        else
          match render cfg with
          | RenderOutcome.createFail =>
            let rest := tryVideosLoopZip pick isInvalid render fuel (pairs.eraseIdx i)
            (WorkflowEv.submit v cfg :: WorkflowEv.renderFail v :: rest.1, rest.2)
          | RenderOutcome.waitFail =>
            let rest := tryVideosLoopZip pick isInvalid render fuel (pairs.eraseIdx i)
            (WorkflowEv.submit v cfg :: WorkflowEv.renderFail v :: rest.1, rest.2)
          | RenderOutcome.completed d dl =>
            if d < 2 || !dl then
              let rest := tryVideosLoopZip pick isInvalid render fuel (pairs.eraseIdx i)
              (WorkflowEv.submit v cfg :: WorkflowEv.renderFail v :: rest.1, rest.2)
            else
              ([WorkflowEv.submit v cfg, WorkflowEv.renderOk v d],
                LoopExit.success d)

/-! ## PublishClient readiness polling

The workflow's publish step calls
`instagram_uploader.upload_and_publish(video_path, selected_caption,
thumbnail_offset)` (src/autopotter_workflow.py line 161) with three
arguments.  The `InstagramVideoUploader.upload_and_publish` present under
src/autopotter_tools/instagram_api.py takes two and contains no readiness
polling, so the publish-side implementation actually invoked here (the
spec's `wait_for_container_ready`) is not among the given sources; it is
modelled from the spec below. -/

/-- Modelled from the spec: the container status reported by one readiness
poll of the publish service (`PublishClient.await_ready`, the source's
`wait_for_container_ready`, which is not under src/).  `inProgress` covers
the spec's PENDING/PROCESSING. -/
inductive ContainerStatus where
  | finished : ContainerStatus
  | error : ContainerStatus
  | expired : ContainerStatus
  | inProgress : ContainerStatus
deriving DecidableEq

/-- Modelled from the spec: the result of `await_ready` — the three
terminal container statuses, or `timeout` when the poll budget is
exhausted without reaching one. -/
inductive ReadyResult where
  | finished : ReadyResult
  | error : ReadyResult
  | expired : ReadyResult
  | timeout : ReadyResult
deriving DecidableEq

/-- Modelled from the spec: the interval, in seconds, slept between
readiness polls. -/
def awaitReadyInterval : Nat := 15

/-- Modelled from the spec: the fixed-budget poll loop of
`await_ready(id, max_polls, interval)`; `budget` is the number of polls
still allowed, `made` the number made so far, `slept` the seconds slept so
far.  A terminal status stops the loop; a non-terminal one sleeps
`awaitReadyInterval` seconds and retries; an exhausted budget yields
`timeout`. -/
def awaitReadyLoop (poll : Nat → ContainerStatus) :
    Nat → Nat → Nat → ReadyResult × Nat × Nat
  | 0, made, slept => (ReadyResult.timeout, made, slept)
  | budget + 1, made, slept =>
    match poll made with
    | ContainerStatus.finished => (ReadyResult.finished, made + 1, slept)
    | ContainerStatus.error => (ReadyResult.error, made + 1, slept)
    | ContainerStatus.expired => (ReadyResult.expired, made + 1, slept)
    | ContainerStatus.inProgress =>
      awaitReadyLoop poll budget (made + 1) (slept + awaitReadyInterval)

/-- Modelled from the spec: `await_ready(id, max_polls=20, interval=15s)`.
Returns the outcome together with the number of polls made and the seconds
slept. -/
def await_ready (poll : Nat → ContainerStatus) (maxPolls : Nat) :
    ReadyResult × Nat × Nat :=
  awaitReadyLoop poll maxPolls 0 0

/-- Modelled from the spec: the publish finalization step of
`upload_and_publish` — `publish(id)` is invoked exactly when `await_ready`
returned FINISHED; any other outcome is a failure without a publish call.
Returns (publish invoked?, readiness outcome). -/
def upload_and_publish (poll : Nat → ContainerStatus) : Bool × ReadyResult :=
  let r := await_ready poll 20
  (r.1 = ReadyResult.finished, r.1)

/-! ## `Json2VideoConfig.validate_basic_config`

Translation of src/autopotter_tools/json2video_api.py lines 115-135: the
only scene-structure validation in the repository.  It checks the
`basic_config` template of the Json2Video config file — it is never applied
to the return value of `parse_json2video_config`. -/

/-- Python `key in d` for a JSON object (the validator only applies it to
dicts). -/
def Json.hasKey (j : Json) (k : List Char) : Bool :=
  match j with
  | Json.obj fs => fs.any (fun f => f.1 = k)
  | _ => false

/-- Which `ValueError` (if any) `validate_basic_config` raises; `ok` is
the `return True` path.  `errNonListScenes` stands for the non-list
`scenes` values on which the Python `for` loop would not iterate scene
dicts. -/
inductive ValidationOutcome where
  | ok : ValidationOutcome
  | errNoBasicConfig : ValidationOutcome
  | errMissingScenes : ValidationOutcome
  | errNoScenes : ValidationOutcome
  | errSceneMissingElements (i : Nat) : ValidationOutcome
  | errSceneNoElements (i : Nat) : ValidationOutcome
  | errNonListScenes : ValidationOutcome
deriving DecidableEq

/-- The `for i, scene in enumerate(basic_config["scenes"])` loop of lines
128-132. -/
def validateScenes : Nat → List Json → ValidationOutcome
  | _, [] => ValidationOutcome.ok
  | i, scene :: rest =>
    if !(scene.hasKey "elements".toList) then
      ValidationOutcome.errSceneMissingElements i
    else
      match scene.lookup "elements".toList with
      | some elems =>
        if elems.isFalsy then ValidationOutcome.errSceneNoElements i
        else validateScenes (i + 1) rest
      | none => ValidationOutcome.errSceneMissingElements i

/-- `validate_basic_config` applied to a `basic_config` value. -/
def validate_basic_config (basic : Json) : ValidationOutcome :=
  if basic.isFalsy then ValidationOutcome.errNoBasicConfig
  else if !(basic.hasKey "scenes".toList) then ValidationOutcome.errMissingScenes
  else
    match basic.lookup "scenes".toList with
    | none => ValidationOutcome.errMissingScenes
    | some scenes =>
      if scenes.isFalsy then ValidationOutcome.errNoScenes
      else
        match scenes with
        | Json.arr xs => validateScenes 0 xs
        | _ => ValidationOutcome.errNonListScenes

/-! ## Concrete inputs used by witnesses and counterexamples -/

/-- A syntactically valid JSON configuration whose single scene has an
empty `elements` list: `\x7b"scenes":[\x7b"elements":[]\x7d]\x7d`. -/
def badSceneConfigStr : List Char :=
  "\x7b\"scenes\":[\x7b\"elements\":[]\x7d]\x7d".toList

/-- The value `json.loads` produces for `badSceneConfigStr`. -/
def badSceneConfigJson : Json :=
  Json.obj [("scenes".toList,
    Json.arr [Json.obj [("elements".toList, Json.arr [])]])]

/-- An input no repair strategy can parse (no braces, no JSON value). -/
def unparseableStr : List Char := "hello there".toList

/-- A well-formed JSON input (for the clean-input witnesses). -/
def cleanJsonStr : List Char := "[1]".toList

/-- A status endpoint whose responses carry `status: "error"` together
with `success: true`. -/
def pollsErrorWithSuccess : Nat → PollOutcome :=
  fun _ => PollOutcome.ok "error".toList true

/-- A status endpoint answering `pending` once and then `error` (with a
false success flag). -/
def pollsPendingThenError : Nat → PollOutcome :=
  fun k => if k = 0 then PollOutcome.ok "pending".toList false
           else PollOutcome.ok "error".toList false

/-- A status endpoint that always answers `pending`. -/
def pollsAlwaysPending : Nat → PollOutcome :=
  fun _ => PollOutcome.ok "pending".toList false

/-- A readiness endpoint on which the container never reaches a terminal
status. -/
def pollAllInProgress : Nat → ContainerStatus :=
  fun _ => ContainerStatus.inProgress

/-- The picker that always selects index 0 (one possible value stream of
`random.randint`). -/
def pickFirst : Nat → Nat := fun _ => 0

/-- A config predicate under which every config is valid (non-falsy). -/
def neverInvalid : Nat → Bool := fun _ => false

/-- Render behaviour for the three-candidate scenario of C7: configs `0`
and `1` fail during `wait_for_completion`, config `2` renders 5 seconds
and downloads fine. -/
def scenarioRender : Nat → RenderOutcome :=
  fun c => if c = 2 then RenderOutcome.completed 5 true else RenderOutcome.waitFail

/-- Render behaviour under which every submission succeeds with a
5-second video. -/
def successRender : Nat → RenderOutcome :=
  fun _ => RenderOutcome.completed 5 true

/-- Number of render submissions (`create_video` calls) in a loop trace. -/
def countSubmits {κ : Type} (t : List (WorkflowEv κ)) : Nat :=
  t.countP (fun e => match e with
    | WorkflowEv.submit _ _ => true
    | _ => false)

/-- The C7 scenario run: three candidates with valid configs, the first
two failing to render, the third succeeding; non-draft mode; publish step
succeeds. -/
def scenarioRun : WorkflowRun Nat :=
  run_autopotter_workflow pickFirst neverInvalid scenarioRender
    [0, 1, 2] [0, 1, 2] false false

/-! ## Theorems -/

/-- Unfolding of the strategy loop over the concrete `repair_strategies`
list: the four parses are attempted in their listed order and the first
success is returned with its log annotation. -/
theorem tryRepairStrategies_eq (loads : List Char → Option Json) (s : List Char) :
    tryRepairStrategies loads s repair_strategies =
      match loads s with
      | some j => some (j, LogEvent.infoParsedDirect)
      | none =>
        match loads (stripControlChars s) with
        | some j => some (j, LogEvent.infoParsedUsing "control character removal".toList)
        | none =>
          match loads (extractJsonSlice s) with
          | some j => some (j, LogEvent.infoParsedUsing "JSON extraction".toList)
          | none =>
            match loads (unescapeChars s) with
            | some j => some (j, LogEvent.infoParsedUsing "escaped character fixing".toList)
            | none => none := by
  simp only [repair_strategies, tryRepairStrategies]
  cases h1 : loads s with
  | some j => simp
  | none =>
    cases h2 : loads (stripControlChars s) with
    | some j => simp
    | none =>
      cases h3 : loads (extractJsonSlice s) with
      | some j => simp
      | none =>
        cases h4 : loads (unescapeChars s) with
        | some j => simp
        | none => rfl

/-- C1: `parse_json2video_config` always returns (a total function: the
source catches every `JSONDecodeError` raised by `json.loads`, the
`loads = none` case here).  `None` input and the empty string immediately
yield the empty config with the "No config string provided" error log, a
log reason distinct from the "All JSON parsing strategies failed" error
emitted when all four repair strategies fail, in which case the empty
config is returned rather than an exception thrown. -/
theorem parse_config_empty_and_allfail_return_empty
    (loads : List Char → Option Json) (s : List Char) (hs : s.isEmpty = false)
    (h1 : loads s = none) (h2 : loads (stripControlChars s) = none)
    (h3 : loads (extractJsonSlice s) = none) (h4 : loads (unescapeChars s) = none) :
    parse_json2video_config loads none = (Json.emptyObj, [LogEvent.errorNoConfig])
    ∧ parse_json2video_config loads (some []) = (Json.emptyObj, [LogEvent.errorNoConfig])
    ∧ parse_json2video_config loads (some s) = (Json.emptyObj, [LogEvent.errorAllFailed])
    ∧ LogEvent.errorNoConfig ≠ LogEvent.errorAllFailed := by
  refine ⟨rfl, rfl, ?_, by decide⟩
  simp [parse_json2video_config, hs, tryRepairStrategies_eq, h1, h2, h3, h4]

/-- Witness for C1 at `loads = loadsSimple` (the concrete JSON decoder)
and the concrete unparseable input `"hello there"`. -/
theorem parse_config_empty_and_allfail_return_empty_witness :
    parse_json2video_config loadsSimple none = (Json.emptyObj, [LogEvent.errorNoConfig])
    ∧ parse_json2video_config loadsSimple (some []) = (Json.emptyObj, [LogEvent.errorNoConfig])
    ∧ parse_json2video_config loadsSimple (some unparseableStr)
        = (Json.emptyObj, [LogEvent.errorAllFailed])
    ∧ LogEvent.errorNoConfig ≠ LogEvent.errorAllFailed :=
  parse_config_empty_and_allfail_return_empty loadsSimple unparseableStr
    rfl rfl rfl rfl rfl

/-- C2: the four repair strategies are applied in their fixed order —
direct parse, control-character strip, brace slice, un-escaping — and the
first whose output parses is returned (second conjunct, the loop's exact
input/output relation); in particular, on any non-empty input that already
parses as JSON, the direct parse of the unmodified text is returned, with
the direct-parsing log annotation (first conjunct). -/
theorem parse_config_fixed_order_first_success
    (loads : List Char → Option Json) (s : List Char) (j : Json)
    (hs : s.isEmpty = false) :
    (loads s = some j →
      parse_json2video_config loads (some s) = (j, [LogEvent.infoParsedDirect]))
    ∧ parse_json2video_config loads (some s) =
        (match loads s with
         | some j0 => (j0, [LogEvent.infoParsedDirect])
         | none =>
           match loads (stripControlChars s) with
           | some j0 => (j0, [LogEvent.infoParsedUsing "control character removal".toList])
           | none =>
             match loads (extractJsonSlice s) with
             | some j0 => (j0, [LogEvent.infoParsedUsing "JSON extraction".toList])
             | none =>
               match loads (unescapeChars s) with
               | some j0 => (j0, [LogEvent.infoParsedUsing "escaped character fixing".toList])
               | none => (Json.emptyObj, [LogEvent.errorAllFailed])) := by
  constructor
  · intro h
    simp [parse_json2video_config, hs, tryRepairStrategies_eq, h]
  · simp only [parse_json2video_config, hs, Bool.false_eq_true, if_false,
      tryRepairStrategies_eq]
    cases loads s with
    | some j0 => rfl
    | none =>
      cases loads (stripControlChars s) with
      | some j0 => rfl
      | none =>
        cases loads (extractJsonSlice s) with
        | some j0 => rfl
        | none =>
          cases loads (unescapeChars s) with
          | some j0 => rfl
          | none => rfl

/-- Witness for C2 at the concrete decoder and the well-formed input
`"[1]"`: the direct parse's value is returned unchanged. -/
theorem parse_config_fixed_order_first_success_witness :
    parse_json2video_config loadsSimple (some cleanJsonStr)
      = (Json.arr [Json.num 1], [LogEvent.infoParsedDirect]) :=
  (parse_config_fixed_order_first_success loadsSimple cleanJsonStr
    (Json.arr [Json.num 1]) rfl).1 rfl

/-- C3 counterexample: the input `\x7b"scenes":[\x7b"elements":[]\x7d]\x7d`
is well-formed JSON, so `parse_json2video_config` returns it as a
non-empty configuration object — yet its only scene has an empty element
list, which the repository's own scene validator
(`Json2VideoConfig.validate_basic_config`) rejects with "Scene 0 has no
elements".  So not every non-empty returned config has ≥ 1 element per
scene: the function performs no such validation. -/
theorem parse_config_shape_claim_counterexample :
    (parse_json2video_config loadsSimple (some badSceneConfigStr)).1 = badSceneConfigJson
    ∧ Json.isFalsy badSceneConfigJson = false
    ∧ validate_basic_config badSceneConfigJson = ValidationOutcome.errSceneNoElements 0 :=
  ⟨rfl, rfl, rfl⟩

/-- C3 amended: `parse_json2video_config` applies no shape validation at
all — any value it returns is either the empty object (parse failure) or
exactly the JSON value `json.loads` produced for one of the four repaired
strings, whatever its shape; only the separate
`Json2VideoConfig.validate_basic_config` checks the scene invariant, and
it is not applied to parse results. -/
theorem parse_config_returns_unvalidated_parse
    (loads : List Char → Option Json) (s : List Char) :
    (parse_json2video_config loads (some s)).1 = Json.emptyObj
    ∨ ∃ p, p ∈ repair_strategies ∧
        loads (p.1 s) = some (parse_json2video_config loads (some s)).1 := by
  have hu := tryRepairStrategies_eq loads s
  cases hs : s.isEmpty with
  | true => exact Or.inl (by simp [parse_json2video_config, hs])
  | false =>
    cases h1 : loads s with
    | some j =>
      refine Or.inr ⟨(fun s => s, "direct parsing".toList), by simp [repair_strategies], ?_⟩
      simp [parse_json2video_config, hs, hu, h1]
    | none =>
      cases h2 : loads (stripControlChars s) with
      | some j =>
        refine Or.inr ⟨(stripControlChars, "control character removal".toList),
          by simp [repair_strategies], ?_⟩
        simp [parse_json2video_config, hs, hu, h1, h2]
      | none =>
        cases h3 : loads (extractJsonSlice s) with
        | some j =>
          refine Or.inr ⟨(extractJsonSlice, "JSON extraction".toList),
            by simp [repair_strategies], ?_⟩
          simp [parse_json2video_config, hs, hu, h1, h2, h3]
        | none =>
          cases h4 : loads (unescapeChars s) with
          | some j =>
            refine Or.inr ⟨(unescapeChars, "escaped character fixing".toList),
              by simp [repair_strategies], ?_⟩
            simp [parse_json2video_config, hs, hu, h1, h2, h3, h4]
          | none =>
            exact Or.inl (by simp [parse_json2video_config, hs, hu, h1, h2, h3, h4])

/-! ### `wait_for_completion` claims -/

/-- One loop iteration on a non-terminal response: sleep 10 seconds and
poll again. -/
theorem waitLoop_retry_step (polls : Nat → PollOutcome) (timeout fuel m elapsed : Nat)
    (hm : elapsed < timeout) (hr : isRetryPoll (polls m) = true) :
    waitLoop polls timeout (fuel + 1) elapsed m
      = waitLoop polls timeout fuel (elapsed + 10) (m + 1) := by
  cases hpm : polls m with
  | exn => rw [hpm] at hr; simp [isRetryPoll] at hr
  | ok s su =>
    rw [hpm] at hr
    simp only [isRetryPoll, Bool.and_eq_true, Bool.not_eq_true', decide_eq_true_eq] at hr
    obtain ⟨⟨hsu, hdone⟩, herr⟩ := hr
    have hdone2 : ¬ (s = ['d', 'o', 'n', 'e']) := by simpa using hdone
    have herr2 : ¬ (s = ['e', 'r', 'r', 'o', 'r']) := by simpa using herr
    simp [waitLoop, hm, hpm, hsu]
    rw [if_neg hdone2, if_neg herr2]

/-- Running the loop past `n` consecutive non-terminal polls. -/
theorem waitLoop_skip_retries (polls : Nat → PollOutcome) (timeout : Nat) :
    ∀ (n fuel m : Nat),
      (∀ j, m ≤ j → j < m + n → isRetryPoll (polls j) = true) →
      10 * (m + n) < timeout → n ≤ fuel →
      waitLoop polls timeout fuel (10 * m) m
        = waitLoop polls timeout (fuel - n) (10 * (m + n)) (m + n) := by
  intro n
  induction n with
  | zero => intro fuel m _ _ _; simp
  | succ n ih =>
    intro fuel m hr ht hf
    match fuel, hf with
    | fuel + 1, _ =>
      have step := waitLoop_retry_step polls timeout fuel m (10 * m)
        (by omega) (hr m le_rfl (by omega))
      rw [step]
      have h10 : 10 * m + 10 = 10 * (m + 1) := by ring
      rw [h10]
      have := ih fuel (m + 1) (fun j hj1 hj2 => hr j (by omega) (by omega))
        (by omega) (by omega)
      rw [this]
      congr 1 <;> omega

/-- C4 counterexample: a status poll can report status `error` and yet the
call does not fail — the `if status == 'done' or success` check of line
124 precedes the `elif status == 'error'` check of line 143, so a response
with `status: "error"` but a true `success` flag makes
`wait_for_completion` return success on that very poll instead of failing.
(No further sleep or poll occurs either way, but the claim's "the call
fails" is false for this input.) -/
theorem wait_error_claim_counterexample :
    pollsErrorWithSuccess 0 = PollOutcome.ok "error".toList true
    ∧ wait_for_completion pollsErrorWithSuccess 50 = WaitResult.completed 0 :=
  ⟨rfl, rfl⟩

/-- C4 amended: whenever a status poll reports status `error` with a false
`success` flag (all earlier polls being non-terminal and the timeout not
yet elapsed), `wait_for_completion` raises on that very poll:
`WaitResult.failed k` means polls `0..k` were made and the loop stopped at
poll `k` without sleeping again — no further sleep and no further poll
after the first such `error` observation. -/
theorem wait_fails_on_error_with_success_false
    (polls : Nat → PollOutcome) (timeout k : Nat)
    (hk : polls k = PollOutcome.ok "error".toList false)
    (hearlier : ∀ j, j < k → isRetryPoll (polls j) = true)
    (ht : 10 * k < timeout) :
    wait_for_completion polls timeout = WaitResult.failed k := by
  unfold wait_for_completion
  have h0 := waitLoop_skip_retries polls timeout k (timeout + 1) 0
    (fun j _ hj => hearlier j (by omega)) (by simpa using ht) (by omega)
  simp only [Nat.mul_zero, Nat.zero_add] at h0
  rw [h0]
  obtain ⟨f, hf⟩ : ∃ f, timeout + 1 - k = f + 1 := ⟨timeout - k, by omega⟩
  rw [hf]
  simp [waitLoop, ht, hk]

/-- Witness for the amended C4: `pending` then `error` (success false)
fails at the second poll, with no poll after it. -/
theorem wait_fails_on_error_with_success_false_witness :
    wait_for_completion pollsPendingThenError 50 = WaitResult.failed 1 :=
  wait_fails_on_error_with_success_false pollsPendingThenError 50 1 rfl
    (by
      intro j hj
      have hj0 : j = 0 := by omega
      subst hj0
      decide)
    (by omega)

/-- The loop times out after the first poll count `n` whose elapsed time
`10 * n` reaches `timeout`, when every poll is non-terminal. -/
theorem waitLoop_timeout_aux (polls : Nat → PollOutcome) (timeout : Nat)
    (hr : ∀ j, isRetryPoll (polls j) = true) :
    ∀ fuel m, timeout < fuel + 10 * m + 1 → 10 * m < timeout + 10 →
      ∃ n, waitLoop polls timeout fuel (10 * m) m = WaitResult.timedOut n
        ∧ timeout ≤ 10 * n ∧ 10 * n < timeout + 10 := by
  intro fuel
  induction fuel with
  | zero =>
    intro m h1 h2
    exact ⟨m, rfl, by omega, h2⟩
  | succ fuel ih =>
    intro m h1 h2
    by_cases hm : 10 * m < timeout
    · have step := waitLoop_retry_step polls timeout fuel m (10 * m) hm (hr m)
      rw [step]
      have h10 : 10 * m + 10 = 10 * (m + 1) := by ring
      rw [h10]
      exact ih (m + 1) (by omega) (by omega)
    · refine ⟨m, ?_, by omega, h2⟩
      simp [waitLoop, hm]

/-- C5: when every poll reports a non-terminal status — `pending`,
`processing`, `running`, or the job not yet visible (`not_found_yet`) —
with a false success flag, `wait_for_completion` raises the timeout error
(and never an error result): the loop makes exactly `n` polls at the
10-second interval, where `timeout ≤ 10·n < timeout + 10`, i.e. one poll
per interval over the timeout window, within one poll of `timeout/10`. -/
theorem wait_times_out_at_interval_spacing
    (polls : Nat → PollOutcome) (timeout : Nat)
    (h : ∀ j, ∃ s, polls j = PollOutcome.ok s false
      ∧ (s = "pending".toList ∨ s = "processing".toList
         ∨ s = "running".toList ∨ s = "not_found_yet".toList)) :
    ∃ n, wait_for_completion polls timeout = WaitResult.timedOut n
      ∧ timeout ≤ 10 * n ∧ 10 * n < timeout + 10 := by
  have hr : ∀ j, isRetryPoll (polls j) = true := by
    intro j
    obtain ⟨s, hs, hcase⟩ := h j
    rw [hs]
    rcases hcase with h1 | h1 | h1 | h1 <;> subst h1 <;> decide
  have := waitLoop_timeout_aux polls timeout hr (timeout + 1) 0 (by omega) (by omega)
  simpa [wait_for_completion] using this

/-- Witness for C5: always-`pending` polls with a 25-second timeout time
out after exactly 3 polls (25 ≤ 30 < 35). -/
theorem wait_times_out_at_interval_spacing_witness :
    ∃ n, wait_for_completion pollsAlwaysPending 25 = WaitResult.timedOut n
      ∧ 25 ≤ 10 * n ∧ 10 * n < 25 + 10 :=
  wait_times_out_at_interval_spacing pollsAlwaysPending 25
    (fun _ => ⟨"pending".toList, rfl, Or.inl rfl⟩)

/-! ### PublishClient readiness claims -/

/-- The readiness loop makes at most `m + budget` polls. -/
theorem awaitReadyLoop_polls_le (poll : Nat → ContainerStatus) :
    ∀ (budget m slept : Nat), (awaitReadyLoop poll budget m slept).2.1 ≤ m + budget := by
  intro budget
  induction budget with
  | zero => intro m slept; simp [awaitReadyLoop]
  | succ budget ih =>
    intro m slept
    cases hp : poll m with
    | inProgress =>
      have hstep : awaitReadyLoop poll (budget + 1) m slept
          = awaitReadyLoop poll budget (m + 1) (slept + awaitReadyInterval) := by
        simp [awaitReadyLoop, hp]
      rw [hstep]
      have := ih (m + 1) (slept + awaitReadyInterval)
      omega
    | finished =>
      have hstep : awaitReadyLoop poll (budget + 1) m slept
          = (ReadyResult.finished, m + 1, slept) := by
        simp [awaitReadyLoop, hp]
      rw [hstep]
      exact show m + 1 ≤ m + (budget + 1) by omega
    | error =>
      have hstep : awaitReadyLoop poll (budget + 1) m slept
          = (ReadyResult.error, m + 1, slept) := by
        simp [awaitReadyLoop, hp]
      rw [hstep]
      exact show m + 1 ≤ m + (budget + 1) by omega
    | expired =>
      have hstep : awaitReadyLoop poll (budget + 1) m slept
          = (ReadyResult.expired, m + 1, slept) := by
        simp [awaitReadyLoop, hp]
      rw [hstep]
      exact show m + 1 ≤ m + (budget + 1) by omega

/-- With no terminal status in the first `budget` polls, the loop spends
its whole budget and times out. -/
theorem awaitReadyLoop_all_inprogress (poll : Nat → ContainerStatus) :
    ∀ (budget m slept : Nat),
      (∀ k, m ≤ k → k < m + budget → poll k = ContainerStatus.inProgress) →
      awaitReadyLoop poll budget m slept
        = (ReadyResult.timeout, m + budget, slept + budget * awaitReadyInterval) := by
  intro budget
  induction budget with
  | zero => intro m slept _; simp [awaitReadyLoop]
  | succ budget ih =>
    intro m slept h
    have hm : poll m = ContainerStatus.inProgress := h m le_rfl (by omega)
    have hstep : awaitReadyLoop poll (budget + 1) m slept
        = awaitReadyLoop poll budget (m + 1) (slept + awaitReadyInterval) := by
      simp [awaitReadyLoop, hm]
    rw [hstep, ih (m + 1) (slept + awaitReadyInterval)
      (fun k hk1 hk2 => h k (by omega) (by omega))]
    have e1 : m + 1 + budget = m + (budget + 1) := by omega
    have e2 : slept + awaitReadyInterval + budget * awaitReadyInterval
        = slept + (budget + 1) * awaitReadyInterval := by ring
    rw [e1, e2]

/-- C6 (spec-modelled): before publishing, the container's readiness is
polled in a fixed-budget loop of at most `max_polls = 20` attempts at
15-second intervals; when no terminal status is reached the loop stops
after exactly 20 attempts (having slept 20 intervals) and returns
`timeout`, an outcome distinct from `ERROR` and `EXPIRED`; and the
publish finalization is invoked exactly when the readiness poll returned
FINISHED. -/
theorem await_ready_fixed_budget_and_publish_gate (poll : Nat → ContainerStatus) :
    (await_ready poll 20).2.1 ≤ 20
    ∧ ((∀ k, k < 20 → poll k = ContainerStatus.inProgress) →
        await_ready poll 20 = (ReadyResult.timeout, 20, 20 * awaitReadyInterval))
    ∧ ReadyResult.timeout ≠ ReadyResult.error
    ∧ ReadyResult.timeout ≠ ReadyResult.expired
    ∧ ((upload_and_publish poll).1 = true ↔ (await_ready poll 20).1 = ReadyResult.finished) := by
  refine ⟨?_, ?_, by decide, by decide, ?_⟩
  · have := awaitReadyLoop_polls_le poll 20 0 0
    simpa [await_ready] using this
  · intro h
    have := awaitReadyLoop_all_inprogress poll 20 0 0 (fun k _ hk => h k (by omega))
    simpa [await_ready] using this
  · simp [upload_and_publish]

/-- Witness for C6 at the never-ready endpoint: exactly 20 polls, then
timeout after 300 seconds of sleeping. -/
theorem await_ready_fixed_budget_and_publish_gate_witness :
    await_ready pollAllInProgress 20 = (ReadyResult.timeout, 20, 20 * awaitReadyInterval) :=
  (await_ready_fixed_budget_and_publish_gate pollAllInProgress).2.1 (fun _ _ => rfl)

/-! ### Workflow orchestrator claims -/

/-- `eraseIdx` commutes with `map`. -/
theorem eraseIdx_map_comm {α β : Type} (f : α → β) :
    ∀ (l : List α) (i : Nat), (l.map f).eraseIdx i = (l.eraseIdx i).map f := by
  intro l
  induction l with
  | nil => intro i; rfl
  | cons a as ih =>
    intro i
    cases i with
    | zero => rfl
    | succ n => simp [List.eraseIdx, ih n]

/-- When the retry loop exits successfully, its trace ends with the
successful candidate's submission and render-success events: nothing — in
particular no further submission — follows the first successful render. -/
theorem tryVideosLoop_success_trace {κ : Type} (pick : Nat → Nat)
    (ii : κ → Bool) (r : κ → RenderOutcome) :
    ∀ (fuel : Nat) (videos : List Video) (configs : List κ) (d : Int),
      (tryVideosLoop pick ii r fuel videos configs).2 = LoopExit.success d →
      ∃ pre v cfg, (tryVideosLoop pick ii r fuel videos configs).1
        = pre ++ [WorkflowEv.submit v cfg, WorkflowEv.renderOk v d] := by
  intro fuel
  induction fuel with
  | zero =>
    intro videos configs d h
    simp [tryVideosLoop] at h
  | succ fuel ih =>
    intro videos configs d h
    simp only [tryVideosLoop] at h ⊢
    cases hv : videos.isEmpty with
    | true => simp only [hv, if_true] at h; simp at h
    | false =>
      simp only [hv, Bool.false_eq_true, if_false] at h ⊢
      cases hget : videos.get? (pick videos.length % videos.length) with
      | none => simp only [hget] at h; simp at h
      | some v0 =>
        simp only [hget] at h ⊢
        cases hcfg : configs.get? (pick videos.length % videos.length) with
        | none => simp only [hcfg] at h; simp at h
        | some cfg0 =>
          simp only [hcfg] at h ⊢
          cases hii : ii cfg0 with
          | true =>
            simp only [hii, if_true] at h ⊢
            obtain ⟨pre, v, cfg, hpre⟩ := ih _ _ d h
            exact ⟨WorkflowEv.skipInvalid v0 :: pre, v, cfg, by simp [hpre]⟩
          | false =>
            simp only [hii, Bool.false_eq_true, if_false] at h ⊢
            cases hr : r cfg0 with
            | createFail =>
              simp only [hr] at h ⊢
              obtain ⟨pre, v, cfg, hpre⟩ := ih _ _ d h
              exact ⟨WorkflowEv.submit v0 cfg0 :: WorkflowEv.renderFail v0 :: pre,
                v, cfg, by simp [hpre]⟩
            | waitFail =>
              simp only [hr] at h ⊢
              obtain ⟨pre, v, cfg, hpre⟩ := ih _ _ d h
              exact ⟨WorkflowEv.submit v0 cfg0 :: WorkflowEv.renderFail v0 :: pre,
                v, cfg, by simp [hpre]⟩
            | completed d0 dl =>
              simp only [hr] at h ⊢
              cases hd : (d0 < 2 || !dl) with
              | true =>
                simp only [hd, if_true] at h ⊢
                obtain ⟨pre, v, cfg, hpre⟩ := ih _ _ d h
                exact ⟨WorkflowEv.submit v0 cfg0 :: WorkflowEv.renderFail v0 :: pre,
                  v, cfg, by simp [hpre]⟩
              | false =>
                simp only [hd, Bool.false_eq_true, if_false,
                  LoopExit.success.injEq] at h ⊢
                subst h
                exact ⟨[], v0, cfg0, rfl⟩

/-- The two-list loop on the projections of a paired candidate list agrees
step for step with the zipped reference loop. -/
theorem tryVideosLoop_zip_eq {κ : Type} (pick : Nat → Nat) (ii : κ → Bool)
    (r : κ → RenderOutcome) :
    ∀ (fuel : Nat) (ps : List (Video × κ)),
      tryVideosLoop pick ii r fuel (ps.map Prod.fst) (ps.map Prod.snd)
        = tryVideosLoopZip pick ii r fuel ps := by
  intro fuel
  induction fuel with
  | zero => intro ps; rfl
  | succ fuel ih =>
    intro ps
    simp only [tryVideosLoop, tryVideosLoopZip, List.length_map, List.get?_map]
    have hemp : (ps.map Prod.fst).isEmpty = ps.isEmpty := by
      cases ps <;> rfl
    rw [hemp]
    cases hps : ps.isEmpty with
    | true => rfl
    | false =>
      simp only [Bool.false_eq_true, if_false]
      cases hget : ps.get? (pick ps.length % ps.length) with
      | none => rfl
      | some pair =>
        obtain ⟨v0, cfg0⟩ := pair
        simp only [Option.map_some']
        cases hii : ii cfg0 with
        | true =>
          simp only [hii, if_true]
          rw [eraseIdx_map_comm, eraseIdx_map_comm, ih]
        | false =>
          simp only [hii, Bool.false_eq_true, if_false]
          cases hr : r cfg0 with
          | createFail => rw [eraseIdx_map_comm, eraseIdx_map_comm, ih]
          | waitFail => rw [eraseIdx_map_comm, eraseIdx_map_comm, ih]
          | completed d0 dl =>
            cases hd : (d0 < 2 || !dl) with
            | true =>
              simp only [hd, if_true]
              rw [eraseIdx_map_comm, eraseIdx_map_comm, ih]
            | false => simp only [hd, Bool.false_eq_true, if_false]

/-- Every submission event of the zipped loop submits a (video, config)
pair of the original candidate list. -/
theorem tryVideosLoopZip_submit_mem {κ : Type} (pick : Nat → Nat) (ii : κ → Bool)
    (r : κ → RenderOutcome) :
    ∀ (fuel : Nat) (ps : List (Video × κ)) (v : Video) (cfg : κ),
      WorkflowEv.submit v cfg ∈ (tryVideosLoopZip pick ii r fuel ps).1 →
      (v, cfg) ∈ ps := by
  intro fuel
  induction fuel with
  | zero =>
    intro ps v cfg h
    simp [tryVideosLoopZip] at h
  | succ fuel ih =>
    intro ps v cfg h
    simp only [tryVideosLoopZip] at h
    cases hps : ps.isEmpty with
    | true => simp only [hps, if_true] at h; simp at h
    | false =>
      simp only [hps, Bool.false_eq_true, if_false] at h
      cases hget : ps.get? (pick ps.length % ps.length) with
      | none => simp only [hget] at h; simp at h
      | some pair =>
        obtain ⟨v0, cfg0⟩ := pair
        have hmem0 : (v0, cfg0) ∈ ps := List.get?_mem hget
        simp only [hget] at h
        cases hii : ii cfg0 with
        | true =>
          simp only [hii, if_true, List.mem_cons] at h
          rcases h with h | h
          · cases h
          · exact List.eraseIdx_subset _ _ (ih _ v cfg h)
        | false =>
          simp only [hii, Bool.false_eq_true, if_false] at h
          cases hr : r cfg0 with
          | createFail =>
            simp only [hr, List.mem_cons] at h
            rcases h with h | h | h
            · cases h; exact hmem0
            · cases h
            · exact List.eraseIdx_subset _ _ (ih _ v cfg h)
          | waitFail =>
            simp only [hr, List.mem_cons] at h
            rcases h with h | h | h
            · cases h; exact hmem0
            · cases h
            · exact List.eraseIdx_subset _ _ (ih _ v cfg h)
          | completed d0 dl =>
            simp only [hr] at h
            cases hd : (d0 < 2 || !dl) with
            | true =>
              simp only [hd, if_true, List.mem_cons] at h
              rcases h with h | h | h
              · cases h; exact hmem0
              · cases h
              · exact List.eraseIdx_subset _ _ (ih _ v cfg h)
            | false =>
              simp only [hd, Bool.false_eq_true, if_false, List.mem_cons] at h
              rcases h with h | h
              · cases h; exact hmem0
              · simp at h

/-- C7: the orchestrator has first-success semantics.  First conjunct
(concrete scenario): with three valid-config candidates of which the first
two fail rendering and the third succeeds, exactly 3 render submissions
occur, exactly 1 publish attempt occurs, and the run returns success.
Second conjunct (general): for any picker, candidate lists and service
behaviour, a successful retry loop's trace ends at the successful render —
a candidate that fails is discarded and another tried, and after the
first success no remaining candidate is ever submitted. -/
theorem workflow_first_success_semantics :
    (countSubmits scenarioRun.loopTrace = 3
      ∧ scenarioRun.publishAttempts = 1
      ∧ scenarioRun.returnValue = true)
    ∧ ∀ {κ : Type} (pick : Nat → Nat) (ii : κ → Bool) (r : κ → RenderOutcome)
        (videos : List Video) (configs : List κ) (d : Int),
        (tryVideos pick ii r videos configs).2 = LoopExit.success d →
        ∃ (pre : List (WorkflowEv κ)) (v : Video) (cfg : κ),
          (tryVideos pick ii r videos configs).1
            = pre ++ [WorkflowEv.submit v cfg, WorkflowEv.renderOk v d] := by
  refine ⟨⟨rfl, rfl, rfl⟩, ?_⟩
  intro κ pick ii r videos configs d h
  exact tryVideosLoop_success_trace pick ii r videos.length videos configs d h

/-- Witness for C7's general conjunct at the concrete three-candidate
scenario: the successful render closes the trace. -/
theorem workflow_first_success_semantics_witness :
    ∃ (pre : List (WorkflowEv Nat)) (v : Video) (cfg : Nat),
      (tryVideos pickFirst neverInvalid scenarioRender [0, 1, 2] [0, 1, 2]).1
        = pre ++ [WorkflowEv.submit v cfg, WorkflowEv.renderOk v 5] :=
  workflow_first_success_semantics.2 pickFirst neverInvalid scenarioRender
    [0, 1, 2] [0, 1, 2] 5 rfl

/-- C8: in draft-only mode, any run whose retry loop rendered a candidate
successfully makes no publish call, does not delete the downloaded
artifact, and returns success, regardless of how the publish step would
have behaved. -/
theorem workflow_draft_only_retains_artifact {κ : Type} (pick : Nat → Nat)
    (ii : κ → Bool) (r : κ → RenderOutcome) (videos : List Video)
    (configs : List κ) (publishRaises : Bool) (d : Int)
    (h : (tryVideos pick ii r videos configs).2 = LoopExit.success d) :
    (run_autopotter_workflow pick ii r videos configs true publishRaises).publishAttempts = 0
    ∧ (run_autopotter_workflow pick ii r videos configs true publishRaises).artifactDownloaded = true
    ∧ (run_autopotter_workflow pick ii r videos configs true publishRaises).artifactDeleted = false
    ∧ (run_autopotter_workflow pick ii r videos configs true publishRaises).returnValue = true := by
  refine ⟨?_, ?_, ?_, ?_⟩ <;> simp [run_autopotter_workflow, h]

/-- Witness for C8 at the three-candidate scenario in draft-only mode
(with a publish step that would raise if it were ever attempted). -/
theorem workflow_draft_only_retains_artifact_witness :
    (run_autopotter_workflow pickFirst neverInvalid scenarioRender
        [0, 1, 2] [0, 1, 2] true true).publishAttempts = 0
    ∧ (run_autopotter_workflow pickFirst neverInvalid scenarioRender
        [0, 1, 2] [0, 1, 2] true true).artifactDownloaded = true
    ∧ (run_autopotter_workflow pickFirst neverInvalid scenarioRender
        [0, 1, 2] [0, 1, 2] true true).artifactDeleted = false
    ∧ (run_autopotter_workflow pickFirst neverInvalid scenarioRender
        [0, 1, 2] [0, 1, 2] true true).returnValue = true :=
  workflow_draft_only_retains_artifact pickFirst neverInvalid scenarioRender
    [0, 1, 2] [0, 1, 2] true 5 rfl

/-- C9 counterexample: a non-draft run with one successfully rendered and
downloaded candidate whose publish step raises exits through the outer
exception handler (returning failure) without deleting the downloaded
artifact — the cleanup of lines 165-167 is only reached when
`upload_and_publish` returns normally, so not every exit path deletes the
artifact. -/
theorem workflow_cleanup_claim_counterexample :
    (run_autopotter_workflow pickFirst neverInvalid successRender
        [0] [0] false true).artifactDownloaded = true
    ∧ (run_autopotter_workflow pickFirst neverInvalid successRender
        [0] [0] false true).artifactDeleted = false
    ∧ (run_autopotter_workflow pickFirst neverInvalid successRender
        [0] [0] false true).returnValue = false :=
  ⟨rfl, rfl, rfl⟩

/-- C9 amended: the artifact is deleted exactly on the runs that
downloaded it, are not draft-only, and whose publish step returned without
raising; in particular, when the publish step raises, the run returns
failure with the downloaded artifact left on disk. -/
theorem workflow_artifact_deleted_iff_publish_ok {κ : Type} (pick : Nat → Nat)
    (ii : κ → Bool) (r : κ → RenderOutcome) (videos : List Video)
    (configs : List κ) (draftOnly publishRaises : Bool) :
    (run_autopotter_workflow pick ii r videos configs draftOnly publishRaises).artifactDeleted
      = ((run_autopotter_workflow pick ii r videos configs draftOnly
            publishRaises).artifactDownloaded && !draftOnly && !publishRaises) := by
  cases h : (tryVideos pick ii r videos configs).2 with
  | success d =>
    cases draftOnly <;> cases publishRaises <;>
      simp [run_autopotter_workflow, h]
  | exhausted => simp [run_autopotter_workflow, h]
  | indexError => simp [run_autopotter_workflow, h]

/-- C10: the two candidate lists stay index-aligned through every
iteration.  Starting from any paired candidate list, the source's two-list
loop (which picks `videos[i]` and `configs[i]` separately and pops both at
the same index on every discard) coincides with the reference loop on the
zipped list, in which selection and discard act on whole pairs — so the
lists keep equal length at every step and every render submission pairs a
video with its own config: each submitted (video, config) pair is one of
the original candidates. -/
theorem workflow_candidate_lists_aligned {κ : Type} (pick : Nat → Nat)
    (ii : κ → Bool) (r : κ → RenderOutcome) (ps : List (Video × κ)) :
    tryVideos pick ii r (ps.map Prod.fst) (ps.map Prod.snd)
      = tryVideosLoopZip pick ii r ps.length ps
    ∧ ∀ v cfg,
        WorkflowEv.submit v cfg
          ∈ (tryVideos pick ii r (ps.map Prod.fst) (ps.map Prod.snd)).1 →
        (v, cfg) ∈ ps := by
  have he : tryVideos pick ii r (ps.map Prod.fst) (ps.map Prod.snd)
      = tryVideosLoopZip pick ii r ps.length ps := by
    rw [tryVideos, List.length_map, tryVideosLoop_zip_eq]
  refine ⟨he, ?_⟩
  intro v cfg h
  rw [he] at h
  exact tryVideosLoopZip_submit_mem pick ii r ps.length ps v cfg h

/-- Witness for C10 at a one-candidate list: the submitted pair is the
original candidate. -/
theorem workflow_candidate_lists_aligned_witness :
    ((0 : Video), (0 : Nat)) ∈ [((0 : Video), (0 : Nat))] :=
  (workflow_candidate_lists_aligned pickFirst neverInvalid successRender
    [(0, 0)]).2 0 0 (by decide)
